import Mathlib

/-!
Verification of the Sparkfun Graphic LCD Serial Backpack driver
(`graphic_lcd.py`) against its natural-language specification.

The Python class `LCD` is shallowly embedded as follows:

* The serial transport is modelled as a log `written : List Nat` of the
  bytes handed to `serial.Serial.write`, in order.
* The bounded `Queue.Queue(buffer_size)` is modelled as a `List Nat`
  (front = next byte to be dequeued) together with the capacity
  discipline of `put`: a `put` on a full bounded queue blocks, which in
  a quiescent system means the call never completes, modelled by
  `Option` (`none` = the call blocks and produces no new state).
* Python's `chr` (which raises `ValueError` outside `[0, 255]`) is
  `chr : Int → Except Err Nat`; a raised exception is `Except.error`.
* Each encoder method is translated to a function producing the byte
  sequence it passes to `send`, or the error it raises.  Methods that
  call `send` more than once (`set_pixel_position`, `set_char_position`)
  return an `EmitResult`: the bytes already handed to `send` before any
  exception, plus the exception if one was raised.
* The pacing thread body `run` is translated with explicit fuel for the
  inner `for x in xrange(buffer_size)` loop (`drainLoopE`) and an
  explicit list of heartbeat cycles (`heartbeatCycles`); transport
  write failures are modelled by a predicate `wf` telling, for each
  position in the write log, whether that write succeeds.
-/

namespace SparkfunLCD

/-- Errors raised by the Python code: `rangeError` for the explicit
`raise ValueError` range checks, `chrError` for `chr()` applied to an
ordinal outside `[0, 255]`, both `ValueError` at runtime. -/
inductive Err where
  | rangeError : Err
  | chrError : Err
  deriving DecidableEq, Repr

/-- Python 2 `chr`: returns the single byte for `n ∈ [0, 255]`, raises
`ValueError` otherwise. -/
def chr (n : Int) : Except Err Nat :=
  if 0 ≤ n ∧ n < 256 then Except.ok n.toNat else Except.error Err.chrError

/-- Python `int(draw)` for a boolean `draw`. -/
def intOfBool (b : Bool) : Int := if b then 1 else 0

/-- The command marker byte `|` (0x7c). -/
def marker : Nat := 0x7c

/-- State of an `LCD` object: constructor configuration plus the
mutable queue/stop flag, and the log of bytes written to the serial
transport. -/
structure LCD where
  size : Int × Int
  rows : Int
  cols : Int
  heartbeat : Int
  buffer_size : Int
  queue : List Nat
  written : List Nat
  stopFlag : Bool
  deriving DecidableEq, Repr

/-- `LCD.__init__`: stores the size, derives `rows = height // 8` and
`cols = width // 6` (Python floor division), records `heartbeat` and
`buffer_size`, creates an empty queue of capacity `buffer_size`, and
clears the stop flag.  It performs no parameter validation and never
raises, so the result is always `Except.ok`. -/
def LCD.init (size : Int × Int) (heartbeat buffer_size : Int) : Except Err LCD :=
  Except.ok
    { size := size
      rows := Int.fdiv size.2 8
      cols := Int.fdiv size.1 6
      heartbeat := heartbeat
      buffer_size := buffer_size
      queue := []
      written := []
      stopFlag := false }

/-- `Queue.put` on a queue of capacity `cap`: blocks (no resulting
state) when the queue is bounded (`cap > 0`) and full, otherwise
appends the element at the back.  A capacity `cap ≤ 0` means an
unbounded queue, as for Python's `Queue.Queue`. -/
def put (cap : Int) (q : List Nat) (b : Nat) : Option (List Nat) :=
  if 0 < cap ∧ cap ≤ (q.length : Int) then none else some (q ++ [b])

/-- Enqueue a list of bytes one at a time with `put`; `none` as soon as
one `put` blocks. -/
def putAll (cap : Int) (q : List Nat) : List Nat → Option (List Nat)
  | [] => some q
  | b :: bs =>
    match put cap q b with
    | none => none
    | some q1 => putAll cap q1 bs

/-- `LCD.send`: with `buffer_size > 0` every byte of `data` is `put`
individually, in order, into the bounded queue (`none` when a `put`
blocks); otherwise the data is written directly to the transport. -/
def LCD.send (l : LCD) (data : List Nat) : Option LCD :=
  if 0 < l.buffer_size then
    match putAll l.buffer_size l.queue data with
    | none => none
    | some q => some { l with queue := q }
  else
    some { l with written := l.written ++ data }

/-- `LCD.stop`: sets the stop flag, nothing else. -/
def LCD.stop (l : LCD) : LCD := { l with stopFlag := true }

/-- Outcome of the inner drain loop of `LCD.run`:
`budget` = exhausted the `xrange(buffer_size)` budget,
`timeout` = `Queue.Empty` with the stop flag clear (`break`),
`stopped` = `Queue.Empty` with the stop flag set (`return`),
`writeFault` = a transport write raised, propagating out of `run`. -/
inductive RunExit where
  | budget : RunExit
  | timeout : RunExit
  | stopped : RunExit
  | writeFault : RunExit
  deriving DecidableEq, Repr

/-- One drain pass of `LCD.run`: `for x in xrange(fuel): d =
queue.get(timeout=0.5); comm.write(d)`.  `wf n` tells whether the write
of the `n`-th byte of the overall write log succeeds; a failing write
raises after the byte was dequeued, terminating `run`. -/
def drainLoopE (wf : Nat → Bool) : Nat → LCD → LCD × RunExit
  | 0, l => (l, RunExit.budget)
  | Nat.succ n, l =>
    match l.queue with
    | [] => (l, if l.stopFlag then RunExit.stopped else RunExit.timeout)
    | b :: rest =>
      if wf l.written.length then
        drainLoopE wf n { l with queue := rest, written := l.written ++ [b] }
      else
        ({ l with queue := rest }, RunExit.writeFault)

/-- The outer `while True` loop of `LCD.run` across a list of heartbeat
cycles: before each cycle's drain pass the producers have enqueued the
bytes `d`; the pass drains up to `buffer_size` bytes; `stopped` and
`writeFault` exits terminate the loop, the others continue after the
heartbeat sleep. -/
def heartbeatCycles (wf : Nat → Bool) : List (List Nat) → LCD → LCD
  | [], l => l
  | d :: rest, l =>
    match drainLoopE wf l.buffer_size.toNat { l with queue := l.queue ++ d } with
    | (l1, RunExit.stopped) => l1
    | (l1, RunExit.writeFault) => l1
    | (l1, RunExit.budget) => heartbeatCycles wf rest l1
    | (l1, RunExit.timeout) => heartbeatCycles wf rest l1

/-- `LCD.run`: returns immediately when `buffer_size == 0`, otherwise
runs the heartbeat loop. -/
def LCD.run (wf : Nat → Bool) (ins : List (List Nat)) (l : LCD) : LCD :=
  if l.buffer_size = 0 then l else heartbeatCycles wf ins l

/-- Result of a method that issues several `send` calls: the bytes
handed to `send` before any exception, and the exception raised, if
any. -/
structure EmitResult where
  sent : List Nat
  err : Option Err
  deriving DecidableEq, Repr

/-- Run two `send`-producing sub-commands in order, collecting the
bytes actually handed to `send` before the first exception. -/
def seq2 (a b : Except Err (List Nat)) : EmitResult :=
  match a with
  | Except.error e => { sent := [], err := some e }
  | Except.ok xs =>
    match b with
    | Except.error e => { sent := xs, err := some e }
    | Except.ok ys => { sent := xs ++ ys, err := none }

/-- `LCD.set_backlight`: range check, then `send("|\x02" + chr(percent))`. -/
def LCD.set_backlight (percent : Int) : Except Err (List Nat) :=
  if percent < 0 ∨ percent > 100 then Except.error Err.rangeError
  else (chr percent).map fun c => [marker, 0x02, c]

/-- `LCD.__set_pos_x`: range check against the pixel width, then
`send("|\x18" + chr(x))`. -/
def LCD.set_pos_x (l : LCD) (x : Int) : Except Err (List Nat) :=
  if x < 0 ∨ x > l.size.1 then Except.error Err.rangeError
  else (chr x).map fun c => [marker, 0x18, c]

/-- `LCD.__set_pos_y`: range check against the pixel height, then
`send("|\x19" + chr(y))`. -/
def LCD.set_pos_y (l : LCD) (y : Int) : Except Err (List Nat) :=
  if y < 0 ∨ y > l.size.2 then Except.error Err.rangeError
  else (chr y).map fun c => [marker, 0x19, c]

/-- `LCD.set_pixel_position(x, y)`: `__set_pos_x(x)` (which sends),
then `__set_pos_y(y)` (which sends). -/
def LCD.set_pixel_position (l : LCD) (x y : Int) : EmitResult :=
  seq2 (LCD.set_pos_x l x) (LCD.set_pos_y l y)

/-- `LCD.__set_row`: range check `0 ≤ r < rows`, then
`__set_pos_y(((rows - r) * 8) - 1)`. -/
def LCD.set_row (l : LCD) (r : Int) : Except Err (List Nat) :=
  if r < 0 ∨ r ≥ l.rows then Except.error Err.rangeError
  else LCD.set_pos_y l ((l.rows - r) * 8 - 1)

/-- `LCD.__set_column`: range check `0 ≤ c < cols`, then
`__set_pos_x(c * 6)`. -/
def LCD.set_column (l : LCD) (c : Int) : Except Err (List Nat) :=
  if c < 0 ∨ c ≥ l.cols then Except.error Err.rangeError
  else LCD.set_pos_x l (c * 6)

/-- `LCD.set_char_position(row, column)`: `__set_row(row)` (which sends
the set-Y command), then `__set_column(column)` (which sends the set-X
command). -/
def LCD.set_char_position (l : LCD) (row column : Int) : EmitResult :=
  seq2 (LCD.set_row l row) (LCD.set_column l column)

/-- `LCD.pixel`: `send("|\x10" + chr(x) + chr(y) + chr(int(draw)))`,
with no range check of its own; `chr` is evaluated left to right while
the byte string is built, before `send` is called. -/
def LCD.pixel (x y : Int) (draw : Bool) : Except Err (List Nat) := do
  let cx ← chr x
  let cy ← chr y
  let cd ← chr (intOfBool draw)
  pure [marker, 0x10, cx, cy, cd]

/-- `LCD.line`: `send("|\x0c" + chr(x1) + chr(y1) + chr(x2) + chr(y2) +
chr(int(draw)))`, with no range check of its own. -/
def LCD.line (x1 y1 x2 y2 : Int) (draw : Bool) : Except Err (List Nat) := do
  let c1 ← chr x1
  let c2 ← chr y1
  let c3 ← chr x2
  let c4 ← chr y2
  let cd ← chr (intOfBool draw)
  pure [marker, 0x0c, c1, c2, c3, c4, cd]

/-- `LCD.box`: `send("|\x0f" + chr(x1) + chr(y1) + chr(x2) + chr(y2))`;
the draw-flag byte is intentionally omitted (firmware quirk), so the
`draw` argument is unused.  No range check of its own. -/
def LCD.box (x1 y1 x2 y2 : Int) (draw : Bool) : Except Err (List Nat) := do
  let _ := draw
  let c1 ← chr x1
  let c2 ← chr y1
  let c3 ← chr x2
  let c4 ← chr y2
  pure [marker, 0x0f, c1, c2, c3, c4]

/-- `LCD.circle`: `send("|\x03" + chr(x) + chr(y) + chr(r) +
chr(int(draw)))`, with no range check of its own. -/
def LCD.circle (x y r : Int) (draw : Bool) : Except Err (List Nat) := do
  let cx ← chr x
  let cy ← chr y
  let cr ← chr r
  let cd ← chr (intOfBool draw)
  pure [marker, 0x03, cx, cy, cr, cd]

/-- `LCD.erase`: `send("|\x05" + chr(x1) + chr(y1) + chr(x2) +
chr(y2))`, with no range check of its own. -/
def LCD.erase (x1 y1 x2 y2 : Int) : Except Err (List Nat) := do
  let c1 ← chr x1
  let c2 ← chr y1
  let c3 ← chr x2
  let c4 ← chr y2
  pure [marker, 0x05, c1, c2, c3, c4]

/-- The LCD object built by `LCD("/dev/...", baud, size=(128,64),
heartbeat=3, buffer_size=416)`, i.e. the default configuration. -/
def lcd0 : LCD :=
  { size := (128, 64)
    rows := 8
    cols := 21
    heartbeat := 3
    buffer_size := 416
    queue := []
    written := []
    stopFlag := false }

/-- A transport whose every write succeeds. -/
def wfOk : Nat → Bool := fun _ => true

/-- A transport whose every write raises. -/
def wfBad : Nat → Bool := fun _ => false

lemma set_pos_x_ok (l : LCD) (x : Int) (h0 : 0 ≤ x) (h1 : x ≤ l.size.1)
    (h2 : x < 256) :
    LCD.set_pos_x l x = Except.ok [marker, 0x18, x.toNat] := by
  unfold LCD.set_pos_x chr
  rw [if_neg (by omega), if_pos ⟨h0, h2⟩]
  rfl

lemma set_pos_y_ok (l : LCD) (y : Int) (h0 : 0 ≤ y) (h1 : y ≤ l.size.2)
    (h2 : y < 256) :
    LCD.set_pos_y l y = Except.ok [marker, 0x19, y.toNat] := by
  unfold LCD.set_pos_y chr
  rw [if_neg (by omega), if_pos ⟨h0, h2⟩]
  rfl

lemma set_pos_y_err (l : LCD) (y : Int) (h : l.size.2 < y) :
    LCD.set_pos_y l y = Except.error Err.rangeError := by
  unfold LCD.set_pos_y
  rw [if_pos (Or.inr (by omega))]

lemma set_row_ok (l : LCD) (row : Int) (h0 : 0 ≤ row) (h1 : row < l.rows)
    (hy0 : 0 ≤ (l.rows - row) * 8 - 1) (hyle : (l.rows - row) * 8 - 1 ≤ l.size.2)
    (hy2 : (l.rows - row) * 8 - 1 < 256) :
    LCD.set_row l row = Except.ok [marker, 0x19, ((l.rows - row) * 8 - 1).toNat] := by
  unfold LCD.set_row
  rw [if_neg (by omega)]
  exact set_pos_y_ok l _ hy0 hyle hy2

lemma set_column_ok (l : LCD) (col : Int) (h0 : 0 ≤ col) (h1 : col < l.cols)
    (hx0 : 0 ≤ col * 6) (hxle : col * 6 ≤ l.size.1) (hx2 : col * 6 < 256) :
    LCD.set_column l col = Except.ok [marker, 0x18, (col * 6).toNat] := by
  unfold LCD.set_column
  rw [if_neg (by omega)]
  exact set_pos_x_ok l _ hx0 hxle hx2

/-- Core comparison of the two positioning methods, for any geometry in
which the derived `rows`/`cols` respect the pixel size and the size
fits in a byte: both emit the same two commands, `set_char_position`
with the set-Y command first, `set_pixel_position` with the set-X
command first. -/
lemma char_vs_pixel_position (l : LCD) (row col : Int)
    (hrows : l.rows * 8 ≤ l.size.2) (hcols : l.cols * 6 ≤ l.size.1)
    (hh : l.size.2 ≤ 256) (hw : l.size.1 ≤ 256)
    (hr0 : 0 ≤ row) (hr : row < l.rows) (hc0 : 0 ≤ col) (hc : col < l.cols) :
    LCD.set_char_position l row col =
      { sent := [marker, 0x19, ((l.rows - row) * 8 - 1).toNat,
                 marker, 0x18, (col * 6).toNat], err := none } ∧
    LCD.set_pixel_position l (col * 6) ((l.rows - row) * 8 - 1) =
      { sent := [marker, 0x18, (col * 6).toNat,
                 marker, 0x19, ((l.rows - row) * 8 - 1).toNat], err := none } := by
  have hy0 : 0 ≤ (l.rows - row) * 8 - 1 := by omega
  have hyle : (l.rows - row) * 8 - 1 ≤ l.size.2 := by omega
  have hy2 : (l.rows - row) * 8 - 1 < 256 := by omega
  have hx0 : 0 ≤ col * 6 := by omega
  have hxle : col * 6 ≤ l.size.1 := by omega
  have hx2 : col * 6 < 256 := by omega
  constructor
  · unfold LCD.set_char_position
    rw [set_row_ok l row hr0 hr hy0 hyle hy2,
        set_column_ok l col hc0 hc hx0 hxle hx2]
    rfl
  · unfold LCD.set_pixel_position
    rw [set_pos_x_ok l _ hx0 hxle hx2, set_pos_y_ok l _ hy0 hyle hy2]
    rfl

/-- C1 counterexample: with `size = (128, 64)` (so `rows = 8`,
`cols = 21`), `set_char_position(0, 10)` sends the set-Y(63) command
first and the set-X(60) command second, while
`set_pixel_position(60, 63)` sends them in the opposite order, so the
two byte sequences are not the same and the claimed set-X-then-set-Y
order for `set_char_position` does not hold. -/
theorem C1_counterexample :
    LCD.set_char_position lcd0 0 10 =
      { sent := [124, 0x19, 63, 124, 0x18, 60], err := none } ∧
    LCD.set_pixel_position lcd0 (10 * 6) ((lcd0.rows - 0) * 8 - 1) =
      { sent := [124, 0x18, 60, 124, 0x19, 63], err := none } ∧
    LCD.set_char_position lcd0 0 10 ≠
      LCD.set_pixel_position lcd0 (10 * 6) ((lcd0.rows - 0) * 8 - 1) :=
  ⟨by decide, by decide, by decide⟩

/-- C1 amended: for every in-range `(row, col)`, `set_char_position(row,
col)` sends exactly the same two commands as `set_pixel_position(col*6,
(rows-row)*8 - 1)` but in the opposite order: the set-Y((rows-row)*8-1)
command first, then the set-X(col*6) command; in particular, with
`size = (128, 64)`, `set_char_position(0, 10)` encodes to set-Y(63)
followed by set-X(60). -/
theorem C1_amended (w h hb bs row col : Int) (l : LCD)
    (hinit : LCD.init (w, h) hb bs = Except.ok l)
    (hw : w ≤ 256) (hh : h ≤ 256)
    (hr0 : 0 ≤ row) (hr : row < l.rows) (hc0 : 0 ≤ col) (hc : col < l.cols) :
    LCD.set_char_position l row col =
      { sent := [marker, 0x19, ((l.rows - row) * 8 - 1).toNat,
                 marker, 0x18, (col * 6).toNat], err := none } ∧
    LCD.set_pixel_position l (col * 6) ((l.rows - row) * 8 - 1) =
      { sent := [marker, 0x18, (col * 6).toNat,
                 marker, 0x19, ((l.rows - row) * 8 - 1).toNat], err := none } := by
  have hl : ({ size := (w, h), rows := Int.fdiv h 8, cols := Int.fdiv w 6,
               heartbeat := hb, buffer_size := bs, queue := [], written := [],
               stopFlag := false } : LCD) = l := by
    simpa [LCD.init] using hinit
  subst hl
  have e8 : Int.fdiv h 8 = h / 8 := Int.fdiv_eq_ediv h (by norm_num)
  have e6 : Int.fdiv w 6 = w / 6 := Int.fdiv_eq_ediv w (by norm_num)
  refine char_vs_pixel_position _ row col ?_ ?_ hh hw hr0 hr hc0 hc
  · show Int.fdiv h 8 * 8 ≤ h
    rw [e8]; omega
  · show Int.fdiv w 6 * 6 ≤ w
    rw [e6]; omega

/-- C1 witness: the amended statement evaluated at the spec scenario
`size = (128, 64)`, `row = 0`, `col = 10`. -/
theorem C1_witness :
    LCD.set_char_position lcd0 0 10 =
      { sent := [124, 0x19, 63, 124, 0x18, 60], err := none } ∧
    LCD.set_pixel_position lcd0 (10 * 6) ((lcd0.rows - 0) * 8 - 1) =
      { sent := [124, 0x18, 60, 124, 0x19, 63], err := none } :=
  C1_amended 128 64 3 416 0 10 lcd0 rfl (by norm_num) (by norm_num)
    (by norm_num) (by decide) (by norm_num) (by decide)

lemma chr_ok (n : Int) (h0 : 0 ≤ n) (h1 : n < 256) :
    chr n = Except.ok n.toNat := by
  unfold chr
  exact if_pos ⟨h0, h1⟩

lemma chr_err (n : Int) (h : n < 0 ∨ 256 ≤ n) :
    chr n = Except.error Err.chrError := by
  unfold chr
  rw [if_neg (by omega)]

lemma chr_draw (draw : Bool) :
    chr (intOfBool draw) = Except.ok (intOfBool draw).toNat := by
  cases draw <;> rfl

lemma chr_lt (n : Int) (c : Nat) (h : chr n = Except.ok c) : c < 256 := by
  unfold chr at h
  split at h
  · cases h
    omega
  · cases h

lemma ok_bind {α β : Type} (a : α) (f : α → Except Err β) :
    (Except.ok a >>= f) = f a := rfl

lemma error_bind {α β : Type} (e : Err) (f : α → Except Err β) :
    ((Except.error e : Except Err α) >>= f) = Except.error e := rfl

lemma bind_ok_inv {α β : Type} {m : Except Err α} {f : α → Except Err β}
    {b : β} (h : (m >>= f) = Except.ok b) :
    ∃ a, m = Except.ok a ∧ f a = Except.ok b := by
  cases m with
  | error e => cases h
  | ok a => exact ⟨a, rfl, h⟩

lemma pixel_ok (x y : Int) (draw : Bool) (hx0 : 0 ≤ x) (hx : x < 256)
    (hy0 : 0 ≤ y) (hy : y < 256) :
    LCD.pixel x y draw =
      Except.ok [marker, 0x10, x.toNat, y.toNat, (intOfBool draw).toNat] := by
  unfold LCD.pixel
  rw [chr_ok x hx0 hx, ok_bind, chr_ok y hy0 hy, ok_bind, chr_draw, ok_bind]
  rfl

lemma line_ok (x1 y1 x2 y2 : Int) (draw : Bool)
    (h1 : 0 ≤ x1) (h2 : x1 < 256) (h3 : 0 ≤ y1) (h4 : y1 < 256)
    (h5 : 0 ≤ x2) (h6 : x2 < 256) (h7 : 0 ≤ y2) (h8 : y2 < 256) :
    LCD.line x1 y1 x2 y2 draw =
      Except.ok [marker, 0x0c, x1.toNat, y1.toNat, x2.toNat, y2.toNat,
                 (intOfBool draw).toNat] := by
  unfold LCD.line
  rw [chr_ok x1 h1 h2, ok_bind, chr_ok y1 h3 h4, ok_bind, chr_ok x2 h5 h6,
      ok_bind, chr_ok y2 h7 h8, ok_bind, chr_draw, ok_bind]
  rfl

lemma box_ok (x1 y1 x2 y2 : Int) (draw : Bool)
    (h1 : 0 ≤ x1) (h2 : x1 < 256) (h3 : 0 ≤ y1) (h4 : y1 < 256)
    (h5 : 0 ≤ x2) (h6 : x2 < 256) (h7 : 0 ≤ y2) (h8 : y2 < 256) :
    LCD.box x1 y1 x2 y2 draw =
      Except.ok [marker, 0x0f, x1.toNat, y1.toNat, x2.toNat, y2.toNat] := by
  unfold LCD.box
  rw [chr_ok x1 h1 h2, ok_bind, chr_ok y1 h3 h4, ok_bind, chr_ok x2 h5 h6,
      ok_bind, chr_ok y2 h7 h8, ok_bind]
  rfl

lemma circle_ok (x y r : Int) (draw : Bool)
    (h1 : 0 ≤ x) (h2 : x < 256) (h3 : 0 ≤ y) (h4 : y < 256)
    (h5 : 0 ≤ r) (h6 : r < 256) :
    LCD.circle x y r draw =
      Except.ok [marker, 0x03, x.toNat, y.toNat, r.toNat,
                 (intOfBool draw).toNat] := by
  unfold LCD.circle
  rw [chr_ok x h1 h2, ok_bind, chr_ok y h3 h4, ok_bind, chr_ok r h5 h6,
      ok_bind, chr_draw, ok_bind]
  rfl

lemma erase_ok (x1 y1 x2 y2 : Int)
    (h1 : 0 ≤ x1) (h2 : x1 < 256) (h3 : 0 ≤ y1) (h4 : y1 < 256)
    (h5 : 0 ≤ x2) (h6 : x2 < 256) (h7 : 0 ≤ y2) (h8 : y2 < 256) :
    LCD.erase x1 y1 x2 y2 =
      Except.ok [marker, 0x05, x1.toNat, y1.toNat, x2.toNat, y2.toNat] := by
  unfold LCD.erase
  rw [chr_ok x1 h1 h2, ok_bind, chr_ok y1 h3 h4, ok_bind, chr_ok x2 h5 h6,
      ok_bind, chr_ok y2 h7 h8, ok_bind]
  rfl

lemma pixel_err (x y : Int) (draw : Bool)
    (h : ¬((0 ≤ x ∧ x < 256) ∧ (0 ≤ y ∧ y < 256))) :
    LCD.pixel x y draw = Except.error Err.chrError := by
  unfold LCD.pixel
  by_cases h1 : 0 ≤ x ∧ x < 256
  case neg => rw [chr_err x (by omega), error_bind]
  rw [chr_ok x h1.1 h1.2, ok_bind, chr_err y (by omega), error_bind]

lemma line_err (x1 y1 x2 y2 : Int) (draw : Bool)
    (h : ¬((0 ≤ x1 ∧ x1 < 256) ∧ (0 ≤ y1 ∧ y1 < 256) ∧ (0 ≤ x2 ∧ x2 < 256) ∧
           (0 ≤ y2 ∧ y2 < 256))) :
    LCD.line x1 y1 x2 y2 draw = Except.error Err.chrError := by
  unfold LCD.line
  by_cases h1 : 0 ≤ x1 ∧ x1 < 256
  case neg => rw [chr_err x1 (by omega), error_bind]
  rw [chr_ok x1 h1.1 h1.2, ok_bind]
  by_cases h2 : 0 ≤ y1 ∧ y1 < 256
  case neg => rw [chr_err y1 (by omega), error_bind]
  rw [chr_ok y1 h2.1 h2.2, ok_bind]
  by_cases h3 : 0 ≤ x2 ∧ x2 < 256
  case neg => rw [chr_err x2 (by omega), error_bind]
  rw [chr_ok x2 h3.1 h3.2, ok_bind, chr_err y2 (by omega), error_bind]

lemma box_err (x1 y1 x2 y2 : Int) (draw : Bool)
    (h : ¬((0 ≤ x1 ∧ x1 < 256) ∧ (0 ≤ y1 ∧ y1 < 256) ∧ (0 ≤ x2 ∧ x2 < 256) ∧
           (0 ≤ y2 ∧ y2 < 256))) :
    LCD.box x1 y1 x2 y2 draw = Except.error Err.chrError := by
  unfold LCD.box
  by_cases h1 : 0 ≤ x1 ∧ x1 < 256
  case neg => rw [chr_err x1 (by omega), error_bind]
  rw [chr_ok x1 h1.1 h1.2, ok_bind]
  by_cases h2 : 0 ≤ y1 ∧ y1 < 256
  case neg => rw [chr_err y1 (by omega), error_bind]
  rw [chr_ok y1 h2.1 h2.2, ok_bind]
  by_cases h3 : 0 ≤ x2 ∧ x2 < 256
  case neg => rw [chr_err x2 (by omega), error_bind]
  rw [chr_ok x2 h3.1 h3.2, ok_bind, chr_err y2 (by omega), error_bind]

lemma circle_err (x y r : Int) (draw : Bool)
    (h : ¬((0 ≤ x ∧ x < 256) ∧ (0 ≤ y ∧ y < 256) ∧ (0 ≤ r ∧ r < 256))) :
    LCD.circle x y r draw = Except.error Err.chrError := by
  unfold LCD.circle
  by_cases h1 : 0 ≤ x ∧ x < 256
  case neg => rw [chr_err x (by omega), error_bind]
  rw [chr_ok x h1.1 h1.2, ok_bind]
  by_cases h2 : 0 ≤ y ∧ y < 256
  case neg => rw [chr_err y (by omega), error_bind]
  rw [chr_ok y h2.1 h2.2, ok_bind, chr_err r (by omega), error_bind]

lemma erase_err (x1 y1 x2 y2 : Int)
    (h : ¬((0 ≤ x1 ∧ x1 < 256) ∧ (0 ≤ y1 ∧ y1 < 256) ∧ (0 ≤ x2 ∧ x2 < 256) ∧
           (0 ≤ y2 ∧ y2 < 256))) :
    LCD.erase x1 y1 x2 y2 = Except.error Err.chrError := by
  unfold LCD.erase
  by_cases h1 : 0 ≤ x1 ∧ x1 < 256
  case neg => rw [chr_err x1 (by omega), error_bind]
  rw [chr_ok x1 h1.1 h1.2, ok_bind]
  by_cases h2 : 0 ≤ y1 ∧ y1 < 256
  case neg => rw [chr_err y1 (by omega), error_bind]
  rw [chr_ok y1 h2.1 h2.2, ok_bind]
  by_cases h3 : 0 ≤ x2 ∧ x2 < 256
  case neg => rw [chr_err x2 (by omega), error_bind]
  rw [chr_ok x2 h3.1 h3.2, ok_bind, chr_err y2 (by omega), error_bind]

lemma pixel_bytes_lt {x y : Int} {draw : Bool} {bs : List Nat}
    (h : LCD.pixel x y draw = Except.ok bs) : ∀ b ∈ bs, b < 256 := by
  unfold LCD.pixel at h
  obtain ⟨cx, hcx, h⟩ := bind_ok_inv h
  obtain ⟨cy, hcy, h⟩ := bind_ok_inv h
  obtain ⟨cd, hcd, h⟩ := bind_ok_inv h
  obtain rfl : [marker, 0x10, cx, cy, cd] = bs := Except.ok.inj h
  intro b hb
  simp only [List.mem_cons, List.not_mem_nil, or_false] at hb
  rcases hb with rfl | rfl | rfl | rfl | rfl
  · norm_num [marker]
  · norm_num
  · exact chr_lt _ _ hcx
  · exact chr_lt _ _ hcy
  · exact chr_lt _ _ hcd

lemma line_bytes_lt {x1 y1 x2 y2 : Int} {draw : Bool} {bs : List Nat}
    (h : LCD.line x1 y1 x2 y2 draw = Except.ok bs) : ∀ b ∈ bs, b < 256 := by
  unfold LCD.line at h
  obtain ⟨c1, hc1, h⟩ := bind_ok_inv h
  obtain ⟨c2, hc2, h⟩ := bind_ok_inv h
  obtain ⟨c3, hc3, h⟩ := bind_ok_inv h
  obtain ⟨c4, hc4, h⟩ := bind_ok_inv h
  obtain ⟨cd, hcd, h⟩ := bind_ok_inv h
  obtain rfl : [marker, 0x0c, c1, c2, c3, c4, cd] = bs := Except.ok.inj h
  intro b hb
  simp only [List.mem_cons, List.not_mem_nil, or_false] at hb
  rcases hb with rfl | rfl | rfl | rfl | rfl | rfl | rfl
  · norm_num [marker]
  · norm_num
  · exact chr_lt _ _ hc1
  · exact chr_lt _ _ hc2
  · exact chr_lt _ _ hc3
  · exact chr_lt _ _ hc4
  · exact chr_lt _ _ hcd

lemma box_bytes_lt {x1 y1 x2 y2 : Int} {draw : Bool} {bs : List Nat}
    (h : LCD.box x1 y1 x2 y2 draw = Except.ok bs) : ∀ b ∈ bs, b < 256 := by
  unfold LCD.box at h
  obtain ⟨c1, hc1, h⟩ := bind_ok_inv h
  obtain ⟨c2, hc2, h⟩ := bind_ok_inv h
  obtain ⟨c3, hc3, h⟩ := bind_ok_inv h
  obtain ⟨c4, hc4, h⟩ := bind_ok_inv h
  obtain rfl : [marker, 0x0f, c1, c2, c3, c4] = bs := Except.ok.inj h
  intro b hb
  simp only [List.mem_cons, List.not_mem_nil, or_false] at hb
  rcases hb with rfl | rfl | rfl | rfl | rfl | rfl
  · norm_num [marker]
  · norm_num
  · exact chr_lt _ _ hc1
  · exact chr_lt _ _ hc2
  · exact chr_lt _ _ hc3
  · exact chr_lt _ _ hc4

lemma circle_bytes_lt {x y r : Int} {draw : Bool} {bs : List Nat}
    (h : LCD.circle x y r draw = Except.ok bs) : ∀ b ∈ bs, b < 256 := by
  unfold LCD.circle at h
  obtain ⟨cx, hcx, h⟩ := bind_ok_inv h
  obtain ⟨cy, hcy, h⟩ := bind_ok_inv h
  obtain ⟨cr, hcr, h⟩ := bind_ok_inv h
  obtain ⟨cd, hcd, h⟩ := bind_ok_inv h
  obtain rfl : [marker, 0x03, cx, cy, cr, cd] = bs := Except.ok.inj h
  intro b hb
  simp only [List.mem_cons, List.not_mem_nil, or_false] at hb
  rcases hb with rfl | rfl | rfl | rfl | rfl | rfl
  · norm_num [marker]
  · norm_num
  · exact chr_lt _ _ hcx
  · exact chr_lt _ _ hcy
  · exact chr_lt _ _ hcr
  · exact chr_lt _ _ hcd

lemma erase_bytes_lt {x1 y1 x2 y2 : Int} {bs : List Nat}
    (h : LCD.erase x1 y1 x2 y2 = Except.ok bs) : ∀ b ∈ bs, b < 256 := by
  unfold LCD.erase at h
  obtain ⟨c1, hc1, h⟩ := bind_ok_inv h
  obtain ⟨c2, hc2, h⟩ := bind_ok_inv h
  obtain ⟨c3, hc3, h⟩ := bind_ok_inv h
  obtain ⟨c4, hc4, h⟩ := bind_ok_inv h
  obtain rfl : [marker, 0x05, c1, c2, c3, c4] = bs := Except.ok.inj h
  intro b hb
  simp only [List.mem_cons, List.not_mem_nil, or_false] at hb
  rcases hb with rfl | rfl | rfl | rfl | rfl | rfl
  · norm_num [marker]
  · norm_num
  · exact chr_lt _ _ hc1
  · exact chr_lt _ _ hc2
  · exact chr_lt _ _ hc3
  · exact chr_lt _ _ hc4

/-- C2 counterexample: `pixel(200, 70)` performs no validation against
the device bounds: with `size = (128, 64)` both coordinates exceed the
addressable area, yet the command is encoded and `send` places all its
bytes in the queue; moreover `set_pixel_position(5, 1000)` sends the
set-X bytes before the Y validation fails, so a validation failure does
not imply that no byte was queued. -/
theorem C2_counterexample :
    LCD.pixel 200 70 true = Except.ok [124, 0x10, 200, 70, 1] ∧
    lcd0.size = (128, 64) ∧ (128 : Int) < 200 ∧ (64 : Int) < 70 ∧
    LCD.send lcd0 [124, 0x10, 200, 70, 1] =
      some { lcd0 with queue := [124, 0x10, 200, 70, 1] } ∧
    LCD.set_pixel_position lcd0 5 1000 =
      { sent := [124, 0x18, 5], err := some Err.rangeError } :=
  ⟨rfl, rfl, by norm_num, by norm_num, by decide, by decide⟩

/-- C2 amended: only `set_backlight`, `set_pixel_position` and
`set_char_position` validate their arguments against device bounds
before encoding.  The drawing operations `pixel`, `line`, `box`,
`circle`, `erase` encode and send for any arguments in `[0, 255]`
(the only constraint is `chr`), regardless of the device bounds; and in
`set_pixel_position` the set-X command is sent before the Y argument is
validated, so a failing validation may follow bytes already handed to
`send`. -/
theorem C2_amended (x1 y1 x2 y2 r xg yBad : Int) (draw : Bool) (l : LCD)
    (h1 : 0 ≤ x1) (h2 : x1 < 256) (h3 : 0 ≤ y1) (h4 : y1 < 256)
    (h5 : 0 ≤ x2) (h6 : x2 < 256) (h7 : 0 ≤ y2) (h8 : y2 < 256)
    (h9 : 0 ≤ r) (h10 : r < 256)
    (hg0 : 0 ≤ xg) (hg1 : xg ≤ l.size.1) (hg2 : xg < 256)
    (hyBad : l.size.2 < yBad) :
    LCD.pixel x1 y1 draw =
      Except.ok [marker, 0x10, x1.toNat, y1.toNat, (intOfBool draw).toNat] ∧
    LCD.line x1 y1 x2 y2 draw =
      Except.ok [marker, 0x0c, x1.toNat, y1.toNat, x2.toNat, y2.toNat,
                 (intOfBool draw).toNat] ∧
    LCD.box x1 y1 x2 y2 draw =
      Except.ok [marker, 0x0f, x1.toNat, y1.toNat, x2.toNat, y2.toNat] ∧
    LCD.circle x1 y1 r draw =
      Except.ok [marker, 0x03, x1.toNat, y1.toNat, r.toNat,
                 (intOfBool draw).toNat] ∧
    LCD.erase x1 y1 x2 y2 =
      Except.ok [marker, 0x05, x1.toNat, y1.toNat, x2.toNat, y2.toNat] ∧
    LCD.set_pixel_position l xg yBad =
      { sent := [marker, 0x18, xg.toNat], err := some Err.rangeError } := by
  refine ⟨pixel_ok x1 y1 draw h1 h2 h3 h4,
          line_ok x1 y1 x2 y2 draw h1 h2 h3 h4 h5 h6 h7 h8,
          box_ok x1 y1 x2 y2 draw h1 h2 h3 h4 h5 h6 h7 h8,
          circle_ok x1 y1 r draw h1 h2 h3 h4 h9 h10,
          erase_ok x1 y1 x2 y2 h1 h2 h3 h4 h5 h6 h7 h8, ?_⟩
  unfold LCD.set_pixel_position
  rw [set_pos_x_ok l xg hg0 hg1 hg2, set_pos_y_err l yBad hyBad]
  rfl

/-- C2 witness: the amended statement at concrete inputs, including the
out-of-device-bounds coordinates `(200, 70)` on a 128 by 64 screen. -/
theorem C2_witness :
    LCD.pixel 200 70 true = Except.ok [124, 0x10, 200, 70, 1] ∧
    LCD.line 200 70 0 0 true = Except.ok [124, 0x0c, 200, 70, 0, 0, 1] ∧
    LCD.box 200 70 0 0 true = Except.ok [124, 0x0f, 200, 70, 0, 0] ∧
    LCD.circle 200 70 255 true = Except.ok [124, 0x03, 200, 70, 255, 1] ∧
    LCD.erase 200 70 0 0 = Except.ok [124, 0x05, 200, 70, 0, 0] ∧
    LCD.set_pixel_position lcd0 5 1000 =
      { sent := [124, 0x18, 5], err := some Err.rangeError } :=
  C2_amended 200 70 0 0 255 5 1000 true lcd0 (by norm_num) (by norm_num)
    (by norm_num) (by norm_num) (by norm_num) (by norm_num) (by norm_num)
    (by norm_num) (by norm_num) (by norm_num) (by norm_num) (by decide)
    (by norm_num) (by decide)

/-- C9: for every `percent ∈ [0, 100]`, `set_backlight` hands exactly
the 3 bytes marker, 0x02, percent to `send`; for `percent` outside the
range it raises `ValueError` before calling `send`, so no byte reaches
the queue or the transport. -/
theorem C9_backlight (p : Int) :
    (0 ≤ p → p ≤ 100 →
       LCD.set_backlight p = Except.ok [marker, 0x02, p.toNat] ∧
       [marker, 0x02, p.toNat].length = 3) ∧
    (p < 0 ∨ 100 < p → LCD.set_backlight p = Except.error Err.rangeError) := by
  constructor
  · intro h0 h1
    unfold LCD.set_backlight
    rw [if_neg (by omega), chr_ok p h0 (by omega)]
    exact ⟨rfl, rfl⟩
  · intro h
    unfold LCD.set_backlight
    rw [if_pos (by omega)]

/-- C9 witness: `set_backlight(50)` emits marker, 0x02, 50 and
`set_backlight(101)` raises. -/
theorem C9_witness :
    LCD.set_backlight 50 = Except.ok [marker, 0x02, 50] ∧
    LCD.set_backlight 101 = Except.error Err.rangeError :=
  ⟨((C9_backlight 50).1 (by norm_num) (by norm_num)).1,
   (C9_backlight 101).2 (by norm_num)⟩

/-- C10: for `pixel`, `line`, `box`, `circle`, `erase`, any coordinate
or radius outside `[0, 255]` makes `chr` raise while the byte string is
being built, before `send` is called, so no bytes reach the queue or
the transport; and every byte of a successfully encoded payload is in
`[0, 255]`. -/
theorem C10_byte_safety (x1 y1 x2 y2 r : Int) (draw : Bool) :
    (¬((0 ≤ x1 ∧ x1 < 256) ∧ (0 ≤ y1 ∧ y1 < 256)) →
       LCD.pixel x1 y1 draw = Except.error Err.chrError) ∧
    (¬((0 ≤ x1 ∧ x1 < 256) ∧ (0 ≤ y1 ∧ y1 < 256) ∧ (0 ≤ x2 ∧ x2 < 256) ∧
        (0 ≤ y2 ∧ y2 < 256)) →
       LCD.line x1 y1 x2 y2 draw = Except.error Err.chrError ∧
       LCD.box x1 y1 x2 y2 draw = Except.error Err.chrError ∧
       LCD.erase x1 y1 x2 y2 = Except.error Err.chrError) ∧
    (¬((0 ≤ x1 ∧ x1 < 256) ∧ (0 ≤ y1 ∧ y1 < 256) ∧ (0 ≤ r ∧ r < 256)) →
       LCD.circle x1 y1 r draw = Except.error Err.chrError) ∧
    (∀ bs : List Nat,
       (LCD.pixel x1 y1 draw = Except.ok bs ∨
        LCD.line x1 y1 x2 y2 draw = Except.ok bs ∨
        LCD.box x1 y1 x2 y2 draw = Except.ok bs ∨
        LCD.circle x1 y1 r draw = Except.ok bs ∨
        LCD.erase x1 y1 x2 y2 = Except.ok bs) →
       ∀ b ∈ bs, b < 256) := by
  refine ⟨fun h => pixel_err x1 y1 draw h,
          fun h => ⟨line_err x1 y1 x2 y2 draw h, box_err x1 y1 x2 y2 draw h,
                    erase_err x1 y1 x2 y2 h⟩,
          fun h => circle_err x1 y1 r draw h,
          fun bs h => ?_⟩
  rcases h with h | h | h | h | h
  · exact pixel_bytes_lt h
  · exact line_bytes_lt h
  · exact box_bytes_lt h
  · exact circle_bytes_lt h
  · exact erase_bytes_lt h

/-- C10 witness: an x coordinate of 300 makes every drawing operation
raise during byte construction. -/
theorem C10_witness :
    LCD.pixel 300 20 true = Except.error Err.chrError ∧
    LCD.line 300 20 0 0 true = Except.error Err.chrError ∧
    LCD.box 300 20 0 0 true = Except.error Err.chrError ∧
    LCD.erase 300 20 0 0 = Except.error Err.chrError ∧
    LCD.circle 300 20 0 true = Except.error Err.chrError :=
  ⟨(C10_byte_safety 300 20 0 0 0 true).1 (by norm_num),
   ((C10_byte_safety 300 20 0 0 0 true).2.1 (by norm_num)).1,
   ((C10_byte_safety 300 20 0 0 0 true).2.1 (by norm_num)).2.1,
   ((C10_byte_safety 300 20 0 0 0 true).2.1 (by norm_num)).2.2,
   (C10_byte_safety 300 20 0 0 0 true).2.2.1 (by norm_num)⟩

/-- One producer or consumer step on the shared bounded queue:
`enq` is a completed `Queue.put` (only possible when `put` does not
block), `deq` is a `Queue.get` of the front element by the drain
loop. -/
inductive QStep (cap : Int) : List Nat → List Nat → Prop
  | enq (b : Nat) (q q' : List Nat) : put cap q b = some q' → QStep cap q q'
  | deq (b : Nat) (q : List Nat) : QStep cap (b :: q) q

/-- Queue contents reachable from the empty queue the constructor
creates, under any interleaving of producer puts and drain-loop
gets. -/
inductive QReach (cap : Int) : List Nat → Prop
  | init : QReach cap []
  | step (q q' : List Nat) : QReach cap q → QStep cap q q' → QReach cap q'

lemma put_length (cap : Int) (q q' : List Nat) (b : Nat) (hcap : 0 < cap)
    (h : put cap q b = some q') :
    (q'.length : Int) ≤ cap := by
  unfold put at h
  split at h
  · cases h
  · rename_i hc
    obtain rfl := Option.some.inj h
    have hlt : ¬(cap ≤ (q.length : Int)) := fun hx => hc ⟨hcap, hx⟩
    simp only [List.length_append, List.length_cons, List.length_nil]
    push_cast
    omega

lemma putAll_space (cap : Int) (q data : List Nat)
    (h : (q.length : Int) + data.length ≤ cap) :
    putAll cap q data = some (q ++ data) := by
  induction data generalizing q with
  | nil => simp [putAll]
  | cons b bs ih =>
    simp only [List.length_cons] at h
    unfold putAll put
    have hno : ¬(0 < cap ∧ cap ≤ (q.length : Int)) := by
      rintro ⟨h1, h2⟩
      push_cast at h
      omega
    rw [if_neg hno]
    have hrec := ih (q ++ [b]) (by simp only [List.length_append,
      List.length_cons, List.length_nil]; push_cast at h ⊢; omega)
    show putAll cap (q ++ [b]) bs = some (q ++ b :: bs)
    rw [hrec]
    simp

lemma drainLoopE_true_eq (n : Nat) (l : LCD) :
    (drainLoopE wfOk n l).1 =
      { l with queue := l.queue.drop n, written := l.written ++ l.queue.take n } := by
  induction n generalizing l with
  | zero => simp [drainLoopE]
  | succ n ih =>
    obtain ⟨sz, rs, cs, hb, bs, q, w, st⟩ := l
    cases q with
    | nil => simp [drainLoopE]
    | cons b rest =>
      simp [drainLoopE, wfOk, ih, List.take_succ_cons, List.drop_succ_cons]

lemma drainLoopE_written_le (wf : Nat → Bool) (n : Nat) (l : LCD) :
    (drainLoopE wf n l).1.written.length ≤ l.written.length + n := by
  induction n generalizing l with
  | zero => simp [drainLoopE]
  | succ n ih =>
    obtain ⟨sz, rs, cs, hb, bs, q, w, st⟩ := l
    cases q with
    | nil => simp [drainLoopE]
    | cons b rest =>
      simp only [drainLoopE]
      split
      · have := ih { size := sz, rows := rs, cols := cs, heartbeat := hb,
                     buffer_size := bs, queue := rest, written := w ++ [b],
                     stopFlag := st }
        simp only [List.length_append, List.length_cons, List.length_nil] at this
        omega
      · show w.length ≤ w.length + (n + 1)
        omega

lemma drainLoopE_buffer (wf : Nat → Bool) (n : Nat) (l : LCD) :
    (drainLoopE wf n l).1.buffer_size = l.buffer_size := by
  induction n generalizing l with
  | zero => rfl
  | succ n ih =>
    obtain ⟨sz, rs, cs, hb, bs, q, w, st⟩ := l
    cases q with
    | nil => rfl
    | cons b rest =>
      simp only [drainLoopE]
      split
      · exact ih _
      · rfl

lemma heartbeatCycles_written_le (wf : Nat → Bool) (ins : List (List Nat))
    (l : LCD) :
    (heartbeatCycles wf ins l).written.length ≤
      l.written.length + ins.length * l.buffer_size.toNat := by
  induction ins generalizing l with
  | nil => simp [heartbeatCycles]
  | cons d rest ih =>
    have hcycle := drainLoopE_written_le wf l.buffer_size.toNat
      { l with queue := l.queue ++ d }
    have hbuf := drainLoopE_buffer wf l.buffer_size.toNat
      { l with queue := l.queue ++ d }
    have hmul : (rest.length + 1) * l.buffer_size.toNat =
        rest.length * l.buffer_size.toNat + l.buffer_size.toNat :=
      Nat.succ_mul _ _
    simp only [heartbeatCycles, List.length_cons]
    rcases hdr : drainLoopE wf l.buffer_size.toNat { l with queue := l.queue ++ d }
      with ⟨l1, e⟩
    rw [hdr] at hcycle hbuf
    dsimp only at hcycle hbuf
    cases e
    · dsimp only
      have hih := ih l1
      rw [hbuf] at hih
      omega
    · dsimp only
      have hih := ih l1
      rw [hbuf] at hih
      omega
    · dsimp only
      omega
    · dsimp only
      omega

/-- C3: in bypass mode (`buffer_size = 0`) every `send` writes its data
synchronously and unmodified to the transport, leaves the queue
untouched, and `run` returns immediately without executing the loop
body. -/
theorem C3_bypass (l : LCD) (data : List Nat) (wf : Nat → Bool)
    (ins : List (List Nat)) (h : l.buffer_size = 0) :
    LCD.send l data = some { l with written := l.written ++ data } ∧
    LCD.run wf ins l = l := by
  constructor
  · unfold LCD.send
    rw [if_neg (by omega)]
  · unfold LCD.run
    rw [if_pos h]

/-- The spec scenario channel: `size = (128, 64)` with
`buffer_size = 0`. -/
def lcdB : LCD := { lcd0 with buffer_size := 0 }

/-- C3 witness: a bypass channel sends the two bytes of `"AB"` straight
to the transport and `run` is the identity. -/
theorem C3_witness :
    LCD.send lcdB [65, 66] = some { lcdB with written := [65, 66] } ∧
    LCD.run wfOk [[67]] lcdB = lcdB :=
  C3_bypass lcdB [65, 66] wfOk [[67]] rfl

/-- C4: with `quantum = Q > 0` the constructor creates the queue with
capacity exactly `Q`; every queue content reachable by interleaved
enqueues and dequeues holds at most `Q` bytes; and a `put` on a queue
holding exactly `Q` bytes blocks instead of growing the queue. -/
theorem C4_bounded_queue (Q : Int) (hQ : 0 < Q) (sz : Int × Int) (hb : Int)
    (l : LCD) (hinit : LCD.init sz hb Q = Except.ok l) :
    l.buffer_size = Q ∧
    (∀ q : List Nat, QReach Q q → (q.length : Int) ≤ Q) ∧
    (∀ (q : List Nat) (b : Nat), (q.length : Int) = Q → put Q q b = none) := by
  refine ⟨?_, ?_, ?_⟩
  · obtain rfl := Except.ok.inj hinit
    rfl
  · intro q hq
    induction hq with
    | init => simp; omega
    | step qa qb hr hs ih =>
      cases hs with
      | enq b qx qy hput => exact put_length Q qa qb b hQ hput
      | deq b =>
        simp only [List.length_cons] at ih
        push_cast at ih ⊢
        omega
  · intro q b hfull
    unfold put
    rw [if_pos ⟨hQ, by omega⟩]

/-- C4 witness: the default channel has capacity 416; the queue
`[1, 2]` is reachable and within bound; a `put` on a full queue of 416
bytes blocks. -/
theorem C4_witness :
    lcd0.buffer_size = 416 ∧
    (([1, 2] : List Nat).length : Int) ≤ 416 ∧
    put 416 (List.replicate 416 7) 9 = none := by
  have h := C4_bounded_queue 416 (by norm_num) (128, 64) 3 lcd0 rfl
  refine ⟨h.1, h.2.1 [1, 2] ?_, h.2.2 (List.replicate 416 7) 9
    (by rw [List.length_replicate]; norm_num)⟩
  exact QReach.step _ _
    (QReach.step _ _ QReach.init (QStep.enq 1 [] [1] rfl))
    (QStep.enq 2 [1] [1, 2] rfl)

/-- C5: a single drain pass dequeues at most `quantum` bytes, writing
each dequeued byte to the transport in order (with a fault-free
transport the pass moves exactly the first `quantum` queued bytes to
the write log); consequently over any `N` consecutive heartbeat
cycles the loop writes at most `N * quantum` bytes. -/
theorem C5_pacing (wf : Nat → Bool) (l : LCD) (ins : List (List Nat)) :
    (drainLoopE wfOk l.buffer_size.toNat l).1 =
      { l with queue := l.queue.drop l.buffer_size.toNat,
               written := l.written ++ l.queue.take l.buffer_size.toNat } ∧
    (drainLoopE wf l.buffer_size.toNat l).1.written.length ≤
      l.written.length + l.buffer_size.toNat ∧
    (heartbeatCycles wf ins l).written.length ≤
      l.written.length + ins.length * l.buffer_size.toNat :=
  ⟨drainLoopE_true_eq _ _, drainLoopE_written_le _ _ _,
   heartbeatCycles_written_le _ _ _⟩

/-- A channel with `buffer_size = 4` and one pending byte, used to
exercise a transport write failure. -/
def l6 : LCD :=
  { size := (128, 64), rows := 8, cols := 21, heartbeat := 3, buffer_size := 4,
    queue := [65], written := [], stopFlag := false }

/-- C6 counterexample: when the transport write fails during a drain
pass the loop terminates, but no fault is recorded anywhere in the
state, and the very next `send` succeeds and enqueues its byte instead
of failing with `ChannelFaulted`. -/
theorem C6_counterexample :
    (drainLoopE wfBad l6.buffer_size.toNat l6).2 = RunExit.writeFault ∧
    LCD.send (drainLoopE wfBad l6.buffer_size.toNat l6).1 [66] =
      some { l6 with queue := [66] } :=
  ⟨by decide, by decide⟩

/-- C6 amended: a transport write failure during a drain pass
terminates the pacing loop (the exception propagates out of `run`), but
the channel has no `Faulted` state: any later `send` with room in the
queue still succeeds and enqueues its bytes. -/
theorem C6_amended (wf : Nat → Bool) (l : LCD) (b : Nat) (rest data : List Nat)
    (hq : l.queue = b :: rest) (hfail : wf l.written.length = false)
    (hpos : 0 < l.buffer_size)
    (hspace : (rest.length : Int) + data.length ≤ l.buffer_size) :
    (drainLoopE wf l.buffer_size.toNat l).2 = RunExit.writeFault ∧
    LCD.send (drainLoopE wf l.buffer_size.toNat l).1 data =
      some { l with queue := rest ++ data } := by
  obtain ⟨n, hn⟩ : ∃ n, l.buffer_size.toNat = n + 1 :=
    ⟨l.buffer_size.toNat - 1, by omega⟩
  have hdrain : drainLoopE wf l.buffer_size.toNat l =
      ({ l with queue := rest }, RunExit.writeFault) := by
    rw [hn]
    simp [drainLoopE, hq, hfail]
  rw [hdrain]
  refine ⟨rfl, ?_⟩
  show LCD.send { l with queue := rest } data = _
  unfold LCD.send
  rw [if_pos (show (0 : Int) < l.buffer_size from hpos),
      putAll_space l.buffer_size rest data hspace]

/-- C6 witness: the amended statement at the concrete faulting
scenario. -/
theorem C6_witness :
    (drainLoopE wfBad l6.buffer_size.toNat l6).2 = RunExit.writeFault ∧
    LCD.send (drainLoopE wfBad l6.buffer_size.toNat l6).1 [66] =
      some { l6 with queue := [] ++ [66] } :=
  C6_amended wfBad l6 65 [] [66] rfl rfl (by decide) (by decide)

/-- C7 counterexample: `heartbeat = -1 ≤ 0` together with
`quantum = 416 > 0` does not make construction fail: `__init__`
performs no validation and succeeds. -/
theorem C7_counterexample :
    (-1 : Int) ≤ 0 ∧ (0 : Int) < 416 ∧
    LCD.init (128, 64) (-1) 416 =
      Except.ok { size := (128, 64), rows := 8, cols := 21, heartbeat := -1,
                  buffer_size := 416, queue := [], written := [],
                  stopFlag := false } :=
  ⟨by norm_num, by norm_num, rfl⟩

/-- C7 amended: construction never fails: for every size, heartbeat and
quantum, including non-positive heartbeats with positive quantum,
`__init__` succeeds in the stopped state with an empty queue, the stop
flag clear, and the derived geometry `rows = height // 8`,
`cols = width // 6`. -/
theorem C7_amended (size : Int × Int) (hb bs : Int) :
    LCD.init size hb bs =
      Except.ok { size := size, rows := Int.fdiv size.2 8,
                  cols := Int.fdiv size.1 6, heartbeat := hb,
                  buffer_size := bs, queue := [], written := [],
                  stopFlag := false } := rfl

/-- C8 counterexample: after `stop()` the channel still accepts `send`:
the byte is enqueued exactly as before. -/
theorem C8_counterexample :
    (LCD.stop lcd0).stopFlag = true ∧
    LCD.send (LCD.stop lcd0) [65] =
      some { lcd0 with stopFlag := true, queue := [65] } :=
  ⟨rfl, by decide⟩

/-- C8 amended: `stop()` only sets the stop flag, which makes the
pacing loop exit at its next empty-queue poll; `send` never consults
the stop flag, so sends after `stop()` behave exactly as before
(enqueue or direct write), rather than being rejected. -/
theorem C8_amended (wf : Nat → Bool) (l ls : LCD) (data : List Nat) (n : Nat)
    (hstop : ls.stopFlag = true) (hq : ls.queue = []) :
    LCD.stop l = { l with stopFlag := true } ∧
    LCD.send (LCD.stop l) data = Option.map LCD.stop (LCD.send l data) ∧
    (drainLoopE wf (n + 1) ls).2 = RunExit.stopped := by
  refine ⟨rfl, ?_, ?_⟩
  · dsimp only [LCD.send, LCD.stop]
    by_cases hbs : 0 < l.buffer_size
    · rw [if_pos hbs, if_pos hbs]
      cases hput : putAll l.buffer_size l.queue data with
      | none => rfl
      | some q => rfl
    · rw [if_neg hbs, if_neg hbs]
      rfl
  · have : drainLoopE wf (n + 1) ls = (ls, RunExit.stopped) := by
      simp [drainLoopE, hq, hstop]
    rw [this]

/-- The default channel after `stop()`. -/
def lcdStopped : LCD := { lcd0 with stopFlag := true }

/-- C8 witness: the amended statement at the default channel. -/
theorem C8_witness :
    LCD.stop lcd0 = { lcd0 with stopFlag := true } ∧
    LCD.send (LCD.stop lcd0) [65] = Option.map LCD.stop (LCD.send lcd0 [65]) ∧
    (drainLoopE wfOk (0 + 1) lcdStopped).2 = RunExit.stopped :=
  C8_amended wfOk lcd0 lcdStopped [65] 0 rfl rfl

end SparkfunLCD
